import Mathlib

/-!
Verification of the document ingestion / classification / analysis pipeline of the
dual-gr backend (files `app/routers/api_pedidos_exame.py`, `app/services/pdf_service.py`,
`app/services/ai_service.py`), shallowly embedded in Lean.

Modelling conventions:
* Python `bytes` values are lists of byte values (`List Nat`).
* Python string helpers (`str.lower`, `str.strip`, `re.sub`, slicing, `or`, `in`) are
  embedded as executable character-list functions (`pyLower`, `pyStrip`, `collapseWs`,
  `pySlice`, `pyOr`, `pyContains`) matching Python semantics on the Latin-1 range used
  by the source.
* Raised exceptions are modelled by `Except PyErr`: `PyErr.http` is a fastapi
  `HTTPException(status, detail)` (translated by the framework into a 4xx/5xx reply),
  `PyErr.runtime` a Python `RuntimeError`, and `PyErr.pyExc` any other uncaught
  library exception (e.g. a pypdf parse error).  Propagation through `Except`
  mirrors the absence of `try/except` in the callers.
* External library calls are oracles passed as arguments: `parsePdf` models
  `pypdf.PdfReader` applied to the uploaded bytes (error = the constructor raised),
  `loads` models `json.loads`, and `outputText` models the external model call's
  `resp.output_text`.  Everything downstream of those calls is translated from the
  source.
-/

-- ---------------------------------------------------------------------------
-- Python string primitives
-- ---------------------------------------------------------------------------

/-- Whitespace for Python's `str.strip` / regex `\s` on the inputs at hand:
space, tab, newline, carriage return, vertical tab (11), form feed (12). -/
def pyIsSpace (c : Char) : Bool :=
  c = ' ' || c = '\t' || c = '\n' || c = '\r' || c.toNat = 11 || c.toNat = 12

/-- `str.lower` on one character, for ASCII and the Latin-1 block (covers every
character appearing in the source's keyword tables and test inputs):
`A`-`Z` and `À`-`Þ` (except `×`) shift down by 32. -/
def pyLowerChar (c : Char) : Char :=
  let n := c.toNat
  if 65 ≤ n && n ≤ 90 then Char.ofNat (n + 32)
  else if 192 ≤ n && n ≤ 222 && n != 215 then Char.ofNat (n + 32)
  else c

/-- Python `str.lower`. -/
def pyLower (s : String) : String := ⟨s.toList.map pyLowerChar⟩

def pyStripList (l : List Char) : List Char :=
  ((l.dropWhile pyIsSpace).reverse.dropWhile pyIsSpace).reverse

/-- Python `str.strip()`. -/
def pyStrip (s : String) : String := ⟨pyStripList s.toList⟩

def collapseChars : List Char → Bool → List Char
  | [], _ => []
  | c :: rest, inRun =>
    if pyIsSpace c then
      if inRun then collapseChars rest true
      else ' ' :: collapseChars rest true
    else c :: collapseChars rest false

/-- Python `re.sub(r"\s+", " ", s)`: every maximal whitespace run becomes one space. -/
def collapseWs (s : String) : String := ⟨collapseChars s.toList false⟩

def listHasSub (needle : List Char) : List Char → Bool
  | [] => needle.isEmpty
  | a :: rest => needle.isPrefixOf (a :: rest) || listHasSub needle rest

/-- Python `needle in hay` (substring test). -/
def pyContains (hay needle : String) : Bool := listHasSub needle.toList hay.toList

/-- Python `s.endswith(sfx)`. -/
def pyEndsWith (s sfx : String) : Bool := sfx.toList.reverse.isPrefixOf s.toList.reverse

/-- Python `s[:n]` (first `n` characters). -/
def pySlice (s : String) (n : Nat) : String := ⟨s.toList.take n⟩

/-- Python `a or b` for strings (empty string is falsy). -/
def pyOr (a b : String) : String := if a = "" then b else a

/-- Python `"sep".join(parts)`. -/
def pyJoin (sep : String) : List String → String
  | [] => ""
  | [s] => s
  | s :: rest => s ++ sep ++ pyJoin sep rest

-- ---------------------------------------------------------------------------
-- Values and errors
-- ---------------------------------------------------------------------------

/-- Python `bytes`, as a list of byte values. -/
abbrev Bytes := List Nat

/-- A JSON value as produced by Python's `json.loads` (`dict`s are ordered
key/value lists, later duplicates shadowing earlier ones, as in CPython). -/
inductive PyJson where
  | null
  | bool (b : Bool)
  | num (n : Int)
  | str (s : String)
  | arr (xs : List PyJson)
  | obj (fields : List (String × PyJson))

/-- Python `dict` lookup on the ordered field list: the last binding of a key wins. -/
def dictGet : List (String × PyJson) → String → Option PyJson
  | [], _ => none
  | (k, v) :: rest, key =>
    match dictGet rest key with
    | some v2 => some v2
    | none => if k = key then some v else none

/-- A raised Python exception. -/
inductive PyErr where
  | http (status : Nat) (detail : String)
  | runtime (msg : String)
  | pyExc (msg : String)

-- ---------------------------------------------------------------------------
-- app/services/pdf_service.py
-- ---------------------------------------------------------------------------

/-- One page of a parsed PDF: `extractText = some t` models `page.extract_text()`
returning text (a Python `None` return is folded into `some ""`, exactly what the
source's `or ""` does); `none` models the call raising. -/
structure PdfPage where
  extractText : Option String

/-- A successfully constructed `pypdf.PdfReader`. -/
structure PdfDoc where
  pages : List PdfPage

/-- `extract_text_from_pdf_bytes(pdf_bytes)`.  `parsePdf` models the
`PdfReader(io.BytesIO(pdf_bytes))` constructor; its error case (the constructor
raising, e.g. `PdfReadError`) is NOT caught by this function — only the per-page
`extract_text` call sits inside `try/except`. -/
def extract_text_from_pdf_bytes (parsePdf : Bytes → Except String PdfDoc)
    (pdf_bytes : Bytes) : Except String (String × Nat) :=
  match parsePdf pdf_bytes with
  | .error e => .error e
  | .ok reader =>
    let pages := reader.pages.length
    let parts := reader.pages.filterMap fun p =>
      let t := pyStrip (p.extractText.getD "")
      if t = "" then none else some t
    .ok (pyStrip (pyJoin "\n\n" parts), pages)

-- ---------------------------------------------------------------------------
-- app/services/ai_service.py
-- ---------------------------------------------------------------------------

/-- `_get_client()`: raises `RuntimeError` when the `OPENAI_API_KEY` environment
value (passed here explicitly as `apiKey`; unset = `""`) is blank. -/
def _get_client (apiKey : String) : Except PyErr Unit :=
  if pyStrip apiKey = "" then
    .error (.runtime "OPENAI_API_KEY não configurada no ambiente.")
  else .ok ()

/-- The result dict synthesized by `_parse_json_or_fallback` for an
empty/whitespace-only model output. -/
def fallback_empty (doc_type : String) : List (String × PyJson) :=
  [("tipo_documento", .str doc_type),
   ("resumo", .str "Não foi possível gerar análise (resposta vazia)."),
   ("pontos_atencao", .arr []),
   ("orientacoes", .arr []),
   ("quando_procurar_urgencia", .arr []),
   ("perguntas_para_medico", .arr []),
   ("recusa", .bool false),
   ("motivo_recusa", .null)]

/-- The result dict synthesized when `json.loads` succeeded but did not yield a dict. -/
def fallback_nonobj (doc_type : String) (raw : PyJson) : List (String × PyJson) :=
  [("tipo_documento", .str doc_type),
   ("resumo", .str "Resposta em formato inesperado."),
   ("pontos_atencao", .arr []),
   ("orientacoes", .arr []),
   ("quando_procurar_urgencia", .arr []),
   ("perguntas_para_medico", .arr []),
   ("recusa", .bool false),
   ("motivo_recusa", .null),
   ("_raw", raw)]

/-- The result dict synthesized when `json.loads` raised. -/
def fallback_noparse (doc_type content : String) : List (String × PyJson) :=
  [("tipo_documento", .str doc_type),
   ("resumo", .str (pySlice content 2000)),
   ("pontos_atencao", .arr []),
   ("orientacoes", .arr []),
   ("quando_procurar_urgencia", .arr []),
   ("perguntas_para_medico", .arr []),
   ("recusa", .bool false),
   ("motivo_recusa", .null),
   ("_raw", .str content)]

/-- `_parse_json_or_fallback(content, doc_type)`.  `loads` models `json.loads`
(error = the call raised `JSONDecodeError`).  A parsed dict is returned verbatim. -/
def _parse_json_or_fallback (loads : String → Except Unit PyJson)
    (content : String) (doc_type : String) : List (String × PyJson) :=
  let content := pyStrip content
  if content = "" then fallback_empty doc_type
  else
    match loads content with
    | .ok (.obj fields) => fields
    | .ok other => fallback_nonobj doc_type other
    | .error _ => fallback_noparse doc_type content

/-- Mime allow-list used both by the router's image branch and by
`analyze_exam_or_rx_image_bytes`. -/
def imageMimes : List String := ["image/jpeg", "image/jpg", "image/png", "image/webp"]

/-- `analyze_exam_or_rx_text(extracted_text, doc_type)`.  The prompt build and the
provider call are external; `outputText` models `getattr(resp, "output_text", "") or ""`. -/
def analyze_exam_or_rx_text (apiKey : String) (loads : String → Except Unit PyJson)
    (outputText : String) (extracted_text doc_type : String) :
    Except PyErr (List (String × PyJson)) :=
  match _get_client apiKey with
  | .error e => .error e
  | .ok _ =>
    let _ := extracted_text   -- embedded (truncated to 25000 chars) in the prompt only
    .ok (_parse_json_or_fallback loads outputText doc_type)

/-- `analyze_exam_or_rx_image_bytes(image_bytes, mime_type, doc_type)`. -/
def analyze_exam_or_rx_image_bytes (apiKey : String) (loads : String → Except Unit PyJson)
    (outputText : String) (image_bytes : Bytes) (mime_type doc_type : String) :
    Except PyErr (List (String × PyJson)) :=
  if image_bytes.length = 0 ∨ image_bytes.length < 20 then
    .error (.runtime "Imagem vazia ou inválida.")
  else
    -- the source binds `mime = (mime_type or "").strip().lower()` and tests it once
    if pyLower (pyStrip mime_type) ∈ imageMimes then
      match _get_client apiKey with
      | .error e => .error e
      | .ok _ => .ok (_parse_json_or_fallback loads outputText doc_type)
    else
      .error (.runtime "Formato de imagem não suportado. Use JPG/PNG/WEBP.")

-- ---------------------------------------------------------------------------
-- app/routers/api_pedidos_exame.py
-- ---------------------------------------------------------------------------

/-- `_norm(s)`: lowercase, collapse whitespace runs to a single space, strip. -/
def _norm (s : String) : String := pyStrip (collapseWs (pyLower s))

/-- Filename keywords for the exam-request category (`_guess_doc_type`). -/
def pedido_fn_kw : List String :=
  ["pedido", "exame", "solicitacao", "solicitação", "requisicao", "requisição"]

/-- Filename keywords for the prescription category (`_guess_doc_type`). -/
def receita_fn_kw : List String :=
  ["receita", "receituario", "receituário", "prescricao", "prescrição", "rx"]

/-- Body-text keywords `pedido_kw`. -/
def pedido_kw : List String :=
  ["pedido de exame", "solicitacao de exame", "solicitação de exame",
   "exames solicitados", "requisição de exames", "requisicao de exames"]

/-- Body-text keywords `receita_kw`. -/
def receita_kw : List String :=
  ["receituario", "receituário", "prescricao", "prescrição", "posologia", "tomar"]

/-- `_guess_doc_type(filename, text)`. -/
def _guess_doc_type (filename text : String) : Option String :=
  let fn := _norm filename
  let t := _norm text
  if pedido_fn_kw.any (fun k => pyContains fn k) then some "pedido_exame"
  else if receita_fn_kw.any (fun k => pyContains fn k) then some "receita"
  else if pedido_kw.any (fun k => pyContains t k) then some "pedido_exame"
  else if receita_kw.any (fun k => pyContains t k) then some "receita"
  else if (pyContains t "mg" || pyContains t "ml") &&
      (pyContains t "crm" || pyContains t "dr" || pyContains t "dra" ||
       pyContains t "posologia") then
    some "receita"
  else none

/-- The `aliases` dict of `_resolve_doc_type`. -/
def aliases : List (String × String) :=
  [("pedido_exame", "pedido_exame"),
   ("pedido-exame", "pedido_exame"),
   ("exame", "pedido_exame"),
   ("exames", "pedido_exame"),
   ("pedido", "pedido_exame"),
   ("receita", "receita"),
   ("rx", "receita"),
   ("prescricao", "receita"),
   ("prescrição", "receita")]

/-- `_resolve_doc_type(document_type, filename, extracted_text)`. -/
def _resolve_doc_type (document_type : Option String)
    (filename extracted_text : String) : Except PyErr String :=
  let dt := _norm (document_type.getD "")
  match List.lookup dt aliases with
  | some v => .ok v
  | none =>
    match _guess_doc_type filename extracted_text with
    | some g =>
      if g = "pedido_exame" ∨ g = "receita" then .ok g
      else .error (.http 422 "Documento recusado: a IA só lê PEDIDOS DE EXAMES e RECEITAS. Envie apenas esses documentos.")
    | none =>
      .error (.http 422 "Documento recusado: a IA só lê PEDIDOS DE EXAMES e RECEITAS. Envie apenas esses documentos.")

/-- A fastapi `UploadFile` together with the bytes `upload.read()` yields. -/
structure Upload where
  filename : Option String
  content_type : Option String
  data : Bytes

/-- `_read_bytes(upload)`. -/
def _read_bytes (u : Upload) : Except PyErr Bytes :=
  if u.data.length = 0 ∨ u.data.length < 5 then
    .error (.http 400 "Arquivo vazio ou inválido.")
  else .ok u.data

/-- `_ensure_openai_key()` over the `OPENAI_API_KEY` environment value. -/
def _ensure_openai_key (apiKey : String) : Except PyErr Unit :=
  if pyStrip apiKey = "" then
    .error (.http 501 "OPENAI_API_KEY não configurada no servidor (Render). Configure e faça redeploy.")
  else .ok ()

/-- The `meta` dict of the response envelope (optional entries are keys the
source only sometimes inserts). -/
structure Meta where
  filename : String
  source : Option String
  mode : Option String
  size_bytes : Option Nat
  pages : Option Nat
  document_type : Option String

/-- A `JSONResponse` of `_handle_request`. -/
structure Response where
  status : Nat
  ok : Bool
  message : String
  meta : Meta
  analysis : List (String × PyJson)

/-- The filename resolution at the top of `_handle_request`:
`(original_filename or (upload.filename if upload else "") or "documento").strip() or "documento"`. -/
def filenameOf (original_filename : Option String) (upload : Option Upload) : String :=
  pyOr (pyStrip (pyOr (pyOr (original_filename.getD "")
    (match upload with | some u => u.filename.getD "" | none => "")) "documento")) "documento"

/-- The refusal-shaped analysis dict returned for a text-free (scanned) PDF. -/
def scanned_pdf_analysis : List (String × PyJson) :=
  [("tipo_documento", .str "indefinido"),
   ("resumo", .str ""),
   ("pontos_atencao", .arr []),
   ("orientacoes", .arr []),
   ("quando_procurar_urgencia", .arr []),
   ("perguntas_para_medico", .arr []),
   ("recusa", .bool true),
   ("motivo_recusa", .str "O PDF parece escaneado (imagem) ou não possui texto. Envie um PDF com texto selecionável.")]

/-- The `%PDF` signature bytes. -/
def pdfMagic : Bytes := [0x25, 0x50, 0x44, 0x46]

/-- `_handle_request(...)`: the single orchestrator behind every route variant.
Oracles: `apiKey` = `OPENAI_API_KEY`, `parsePdf` = `pypdf.PdfReader`,
`loads` = `json.loads`, `outputText` = the provider response's `output_text`. -/
def _handle_request (apiKey : String) (parsePdf : Bytes → Except String PdfDoc)
    (loads : String → Except Unit PyJson) (outputText : String)
    (upload : Option Upload) (text : Option String) (document_type : Option String)
    (original_filename : Option String) (source : Option String) :
    Except PyErr Response :=
  match _ensure_openai_key apiKey with
  | .error e => .error e
  | .ok _ =>
    let filename := filenameOf original_filename upload
    -- 1) direct text (`if text and text.strip():`)
    if pyStrip (text.getD "") = "" then
      -- 2) a file is required past this point
      match upload with
      | none => .error (.http 422 "Arquivo obrigatório (file/pdf/arquivo/documento) ou campo 'text'.")
      | some u =>
        match _read_bytes u with
        | .error e => .error e
        | .ok data =>
          -- 2a) PDF branch
          if pyLower (u.content_type.getD "") = "application/pdf" ∨
              pyEndsWith (pyLower filename) ".pdf" = true then
            if pdfMagic.isPrefixOf data = false then
              .error (.http 400 "Arquivo não parece ser um PDF válido.")
            else
              match extract_text_from_pdf_bytes parsePdf data with
              | .error e => .error (.pyExc e)
              | .ok (extracted_text, pages) =>
                if pyStrip extracted_text = "" then
                  .ok { status := 200, ok := true,
                        message := "PDF recebido, mas não foi possível extrair texto.",
                        meta := { filename := filename, source := source, mode := some "pdf",
                                  size_bytes := some data.length, pages := some pages,
                                  document_type := none },
                        analysis := scanned_pdf_analysis }
                else
                  match _resolve_doc_type document_type filename extracted_text with
                  | .error e => .error e
                  | .ok doc_type =>
                    match analyze_exam_or_rx_text apiKey loads outputText extracted_text doc_type with
                    | .error e => .error e
                    | .ok analysis =>
                      .ok { status := 200, ok := true,
                            message := "Análise concluída com sucesso.",
                            meta := { filename := filename, source := source, mode := some "pdf",
                                      size_bytes := some data.length, pages := some pages,
                                      document_type := some doc_type },
                            analysis := analysis }
          else
            -- 2b) image branch
            let mime := pyLower (u.content_type.getD "")
            if mime ∈ imageMimes then
              match _resolve_doc_type document_type filename "" with
              | .error e => .error e
              | .ok doc_type =>
                match analyze_exam_or_rx_image_bytes apiKey loads outputText data mime doc_type with
                | .error e => .error e
                | .ok analysis =>
                  .ok { status := 200, ok := true,
                        message := "Análise concluída com sucesso.",
                        meta := { filename := filename, source := source, mode := some "image",
                                  size_bytes := some data.length, pages := none,
                                  document_type := some doc_type },
                        analysis := analysis }
            else
              .error (.http 400 "Formato não suportado. Envie PDF ou imagem (JPG/PNG/WEBP) ou 'text'.")
    else
      let extracted_text := pyStrip (text.getD "")
      match _resolve_doc_type document_type filename extracted_text with
      | .error e => .error e
      | .ok doc_type =>
        match analyze_exam_or_rx_text apiKey loads outputText extracted_text doc_type with
        | .error e => .error e
        | .ok analysis =>
          .ok { status := 200, ok := true, message := "Análise concluída com sucesso.",
                meta := { filename := filename, source := source, mode := some "text",
                          size_bytes := none, pages := none, document_type := some doc_type },
                analysis := analysis }

-- ---------------------------------------------------------------------------
-- Concrete oracle instances used by the concrete theorems below
-- ---------------------------------------------------------------------------

/-- A `json.loads` oracle for raw outputs that are not JSON at all. -/
def loadsFail : String → Except Unit PyJson := fun _ => .error ()

/-- A `PdfReader` oracle for requests that never reach the PDF branch. -/
def parsePdfNone : Bytes → Except String PdfDoc := fun _ => .error "unused"

/-- `PdfReader` on a byte stream whose overall structure is unparsable:
the constructor raises (pypdf does so e.g. when no EOF marker/xref is found). -/
def parsePdfBroken : Bytes → Except String PdfDoc :=
  fun _ => .error "PdfReadError: EOF marker not found"

/-- `PdfReader` on a two-page PDF where `extract_text` raises on every page. -/
def parsePdfAllThrow : Bytes → Except String PdfDoc := fun _ => .ok ⟨[⟨none⟩, ⟨none⟩]⟩

/-- `PdfReader` on a scanned three-page PDF: two pages raise on text extraction,
one yields only whitespace. -/
def parsePdfScan3 : Bytes → Except String PdfDoc :=
  fun _ => .ok ⟨[⟨none⟩, ⟨some "  "⟩, ⟨none⟩]⟩

/-- A scanned-PDF upload (bytes begin with `%PDF-`). -/
def uploadScan3 : Upload :=
  ⟨some "scan.pdf", some "application/pdf", [0x25, 0x50, 0x44, 0x46, 0x2d]⟩

/-- A PNG upload whose filename and (absent) text give no category signal. -/
def uploadPng : Upload := ⟨some "foto.png", some "image/png", List.replicate 30 7⟩

/-- A PNG upload with a category-signalling filename. -/
def uploadPngNoSignal : Upload := ⟨some "selfie.png", some "image/png", List.replicate 25 3⟩

/-- A 10-byte PNG upload: passes intake (≥ 5 bytes) but is below the image
analyzer's 20-byte floor. -/
def uploadTinyPng : Upload := ⟨some "receita.png", some "image/png", List.replicate 10 1⟩

/-- The dict `json.loads` yields on a model refusal reply. -/
def refusalFields : List (String × PyJson) :=
  [("tipo_documento", .str "indefinido"),
   ("resumo", .str ""),
   ("pontos_atencao", .arr []),
   ("orientacoes", .arr []),
   ("quando_procurar_urgencia", .arr []),
   ("perguntas_para_medico", .arr []),
   ("recusa", .bool true),
   ("motivo_recusa", .str "O conteúdo não parece ser uma receita.")]

/-- The raw refusal reply text itself. -/
def refusalJson : String :=
  "\x7b\"tipo_documento\": \"indefinido\", \"resumo\": \"\", \"pontos_atencao\": [], \"orientacoes\": [], \"quando_procurar_urgencia\": [], \"perguntas_para_medico\": [], \"recusa\": true, \"motivo_recusa\": \"O conteúdo não parece ser uma receita.\"\x7d"

/-- `json.loads` behaviour on `refusalJson`. -/
def loadsRefusal : String → Except Unit PyJson :=
  fun s => if s = refusalJson then .ok (.obj refusalFields) else .error ()

/-- A parsed dict violating the spec's AnalysisResult invariant. -/
def c6Fields : List (String × PyJson) :=
  [("recusa", .bool true), ("motivo_recusa", .null), ("pontos_atencao", .arr [.str "dado"])]

/-- Raw model output parsing to `c6Fields`. -/
def c6Json : String :=
  "\x7b\"recusa\": true, \"motivo_recusa\": null, \"pontos_atencao\": [\"dado\"]\x7d"

/-- `json.loads` behaviour on `c6Json`. -/
def loadsC6 : String → Except Unit PyJson :=
  fun s => if s = c6Json then .ok (.obj c6Fields) else .error ()

/-- `json.loads` behaviour on the raw output `"5"`: valid JSON, not an object. -/
def loadsC7 : String → Except Unit PyJson :=
  fun s => if s = "5" then .ok (.num 5) else .error ()

/-- `PdfReader` on a one-page PDF with extractable prescription text. -/
def parsePdfRx : Bytes → Except String PdfDoc :=
  fun _ => .ok ⟨[⟨some "posologia: tomar 1 comprimido"⟩]⟩

/-- A PDF upload carrying the one-page prescription. -/
def uploadRxPdf : Upload :=
  ⟨some "doc.pdf", some "application/pdf", [0x25, 0x50, 0x44, 0x46, 0x2d]⟩

/-- A 25-byte PNG upload whose filename signals the prescription category. -/
def uploadImgRx : Upload := ⟨some "receita.png", some "image/png", List.replicate 25 9⟩

/-- A second signal-free PNG upload. -/
def uploadPng2 : Upload := ⟨some "imagem.png", some "image/png", List.replicate 30 5⟩

/-- The complete set of (status, detail) pairs of the `HTTPException`s that
`_handle_request` itself can raise: all are fixed pre-invoker intake /
configuration / classifier messages; none embeds anything from the model's
reply, so no client-facing error ever carries the model's stated reason. -/
def orchestrator_http_errors : List (Nat × String) :=
  [(501, "OPENAI_API_KEY não configurada no servidor (Render). Configure e faça redeploy."),
   (422, "Arquivo obrigatório (file/pdf/arquivo/documento) ou campo 'text'."),
   (400, "Arquivo vazio ou inválido."),
   (400, "Arquivo não parece ser um PDF válido."),
   (422, "Documento recusado: a IA só lê PEDIDOS DE EXAMES e RECEITAS. Envie apenas esses documentos."),
   (400, "Formato não suportado. Envie PDF ou imagem (JPG/PNG/WEBP) ou 'text'.")]

-- ---------------------------------------------------------------------------
-- Helper lemmas
-- ---------------------------------------------------------------------------

/-- When every page of a successfully parsed PDF strips to empty text, the
extractor returns the empty aggregate together with the true page count. -/
theorem extract_scanned (parsePdf : Bytes → Except String PdfDoc) (b : Bytes)
    (doc : PdfDoc) (hp : parsePdf b = .ok doc)
    (h : ∀ p ∈ doc.pages, pyStrip (p.extractText.getD "") = "") :
    extract_text_from_pdf_bytes parsePdf b = .ok ("", doc.pages.length) := by
  have hnil : (doc.pages.filterMap fun p =>
      let t := pyStrip (p.extractText.getD "")
      if t = "" then none else some t) = [] := by
    rw [List.filterMap_eq_nil_iff]
    intro p hpm
    simp only [h p hpm]
    rfl
  unfold extract_text_from_pdf_bytes
  rw [hp]
  simp only [hnil]
  rfl

/-- `_ensure_openai_key` can only fail with the fixed 501 configuration error. -/
theorem ensure_key_error (apiKey : String) (e : PyErr)
    (h : _ensure_openai_key apiKey = .error e) :
    e = .http 501 "OPENAI_API_KEY não configurada no servidor (Render). Configure e faça redeploy." := by
  unfold _ensure_openai_key at h
  split at h
  · injection h with h1
    exact h1.symm
  · exact Except.noConfusion h

/-- `_read_bytes` can only fail with the fixed 400 intake error. -/
theorem read_bytes_error (u : Upload) (e : PyErr) (h : _read_bytes u = .error e) :
    e = .http 400 "Arquivo vazio ou inválido." := by
  unfold _read_bytes at h
  split at h
  · injection h with h1
    exact h1.symm
  · exact Except.noConfusion h

/-- `_get_client` can only fail with the fixed `RuntimeError`. -/
theorem get_client_error (apiKey : String) (e : PyErr) (h : _get_client apiKey = .error e) :
    e = .runtime "OPENAI_API_KEY não configurada no ambiente." := by
  unfold _get_client at h
  split at h
  · injection h with h1
    exact h1.symm
  · exact Except.noConfusion h

/-- `_resolve_doc_type` can only fail with the fixed classifier 422. -/
theorem resolve_doc_type_error (dtype : Option String) (fn t : String) (e : PyErr)
    (h : _resolve_doc_type dtype fn t = .error e) :
    e = .http 422 "Documento recusado: a IA só lê PEDIDOS DE EXAMES e RECEITAS. Envie apenas esses documentos." := by
  unfold _resolve_doc_type at h
  rcases hL : List.lookup (_norm (dtype.getD "")) aliases with _ | v
  · simp only [hL] at h
    rcases hG : _guess_doc_type fn t with _ | g
    · simp only [hG] at h
      injection h with h1
      exact h1.symm
    · simp only [hG] at h
      by_cases hg : g = "pedido_exame" ∨ g = "receita"
      · rw [if_pos hg] at h
        exact Except.noConfusion h
      · rw [if_neg hg] at h
        injection h with h1
        exact h1.symm
  · simp only [hL] at h
    exact Except.noConfusion h

/-- The only exception `analyze_exam_or_rx_text` itself raises is the missing-key
`RuntimeError` — never an `HTTPException`. -/
theorem analyze_text_error (apiKey : String) (loads : String → Except Unit PyJson)
    (out t dt : String) (e : PyErr)
    (h : analyze_exam_or_rx_text apiKey loads out t dt = .error e) :
    e = .runtime "OPENAI_API_KEY não configurada no ambiente." := by
  unfold analyze_exam_or_rx_text at h
  rcases hg : _get_client apiKey with eG | u0
  · simp only [hg] at h
    injection h with h1
    subst h1
    exact get_client_error apiKey eG hg
  · simp only [hg] at h
    exact Except.noConfusion h

/-- Every exception `analyze_exam_or_rx_image_bytes` raises is a `RuntimeError` —
never an `HTTPException`. -/
theorem analyze_image_error_runtime (apiKey : String) (loads : String → Except Unit PyJson)
    (out : String) (b : Bytes) (mime dt : String) (e : PyErr)
    (h : analyze_exam_or_rx_image_bytes apiKey loads out b mime dt = .error e) :
    ∃ m, e = PyErr.runtime m := by
  unfold analyze_exam_or_rx_image_bytes at h
  by_cases hl : b.length = 0 ∨ b.length < 20
  · rw [if_pos hl] at h
    injection h with h1
    exact ⟨_, h1.symm⟩
  · rw [if_neg hl] at h
    by_cases hm : pyLower (pyStrip mime) ∈ imageMimes
    · rw [if_pos hm] at h
      rcases hg : _get_client apiKey with eG | u0
      · simp only [hg] at h
        injection h with h1
        subst h1
        exact ⟨_, get_client_error apiKey eG hg⟩
      · simp only [hg] at h
        exact Except.noConfusion h
    · rw [if_neg hm] at h
      injection h with h1
      exact ⟨_, h1.symm⟩

/-- Complete case analysis of `_handle_request`: every `HTTPException` it can
raise, on any input whatsoever, is one of the six fixed pre-invoker pairs of
`orchestrator_http_errors` — none derives from the analysis result. -/
theorem handle_http_error_closed (apiKey outputText : String)
    (parsePdf : Bytes → Except String PdfDoc) (loads : String → Except Unit PyJson)
    (upload : Option Upload) (text document_type original_filename source : Option String)
    (st : Nat) (d : String)
    (h : _handle_request apiKey parsePdf loads outputText upload text document_type
      original_filename source = .error (.http st d)) :
    (st, d) ∈ orchestrator_http_errors := by
  unfold _handle_request at h
  rcases hE : _ensure_openai_key apiKey with eE | uE
  · simp only [hE] at h
    have he := ensure_key_error apiKey eE hE
    subst he
    simp only [Except.error.injEq, PyErr.http.injEq] at h
    obtain ⟨rfl, rfl⟩ := h
    decide
  · simp only [hE] at h
    by_cases ht : pyStrip (text.getD "") = ""
    · rw [if_pos ht] at h
      rcases upload with _ | uu
      · simp only [Except.error.injEq, PyErr.http.injEq] at h
        obtain ⟨rfl, rfl⟩ := h
        decide
      · rcases hR : _read_bytes uu with eR | data
        · simp only [hR] at h
          have := read_bytes_error uu eR hR
          subst this
          simp only [Except.error.injEq, PyErr.http.injEq] at h
          obtain ⟨rfl, rfl⟩ := h
          decide
        · simp only [hR] at h
          by_cases hpc : pyLower (uu.content_type.getD "") = "application/pdf" ∨
              pyEndsWith (pyLower (filenameOf original_filename (some uu))) ".pdf" = true
          · rw [if_pos hpc] at h
            by_cases hsig : pdfMagic.isPrefixOf data = false
            · rw [if_pos hsig] at h
              simp only [Except.error.injEq, PyErr.http.injEq] at h
              obtain ⟨rfl, rfl⟩ := h
              decide
            · rw [if_neg hsig] at h
              rcases hX : extract_text_from_pdf_bytes parsePdf data with eX | pr
              · simp only [hX] at h
                simp at h
              · obtain ⟨et, pg⟩ := pr
                simp only [hX] at h
                by_cases hz : pyStrip et = ""
                · rw [if_pos hz] at h
                  exact Except.noConfusion h
                · rw [if_neg hz] at h
                  rcases hRes : _resolve_doc_type document_type
                      (filenameOf original_filename (some uu)) et with eRes | c
                  · simp only [hRes] at h
                    have := resolve_doc_type_error document_type _ et eRes hRes
                    subst this
                    simp only [Except.error.injEq, PyErr.http.injEq] at h
                    obtain ⟨rfl, rfl⟩ := h
                    decide
                  · simp only [hRes] at h
                    rcases hA : analyze_exam_or_rx_text apiKey loads outputText et c
                        with eA | a
                    · simp only [hA] at h
                      have := analyze_text_error apiKey loads outputText et c eA hA
                      subst this
                      simp at h
                    · simp only [hA] at h
                      exact Except.noConfusion h
          · rw [if_neg hpc] at h
            by_cases hm : pyLower (uu.content_type.getD "") ∈ imageMimes
            · rw [if_pos hm] at h
              rcases hRes : _resolve_doc_type document_type
                  (filenameOf original_filename (some uu)) "" with eRes | c
              · simp only [hRes] at h
                have := resolve_doc_type_error document_type _ "" eRes hRes
                subst this
                simp only [Except.error.injEq, PyErr.http.injEq] at h
                obtain ⟨rfl, rfl⟩ := h
                decide
              · simp only [hRes] at h
                rcases hA : analyze_exam_or_rx_image_bytes apiKey loads outputText data
                    (pyLower (uu.content_type.getD "")) c with eA | a
                · simp only [hA] at h
                  obtain ⟨m, rfl⟩ := analyze_image_error_runtime apiKey loads outputText
                    data (pyLower (uu.content_type.getD "")) c eA hA
                  simp at h
                · simp only [hA] at h
                  exact Except.noConfusion h
            · rw [if_neg hm] at h
              simp only [Except.error.injEq, PyErr.http.injEq] at h
              obtain ⟨rfl, rfl⟩ := h
              decide
    · rw [if_neg ht] at h
      rcases hRes : _resolve_doc_type document_type (filenameOf original_filename upload)
          (pyStrip (text.getD "")) with eRes | c
      · simp only [hRes] at h
        have := resolve_doc_type_error document_type _ _ eRes hRes
        subst this
        simp only [Except.error.injEq, PyErr.http.injEq] at h
        obtain ⟨rfl, rfl⟩ := h
        decide
      · simp only [hRes] at h
        rcases hA : analyze_exam_or_rx_text apiKey loads outputText
            (pyStrip (text.getD "")) c with eA | a
        · simp only [hA] at h
          have := analyze_text_error apiKey loads outputText (pyStrip (text.getD "")) c eA hA
          subst this
          simp at h
        · simp only [hA] at h
          exact Except.noConfusion h

/-- Text branch of `_handle_request`: the invoker's parsed dict is returned
verbatim inside the 200 envelope. -/
theorem handle_text_200 (apiKey outputText : String)
    (parsePdf : Bytes → Except String PdfDoc) (loads : String → Except Unit PyJson)
    (upload : Option Upload) (txt : String)
    (document_type original_filename source : Option String) (c : String)
    (hkey : pyStrip apiKey ≠ "") (htxt : pyStrip txt ≠ "")
    (hres : _resolve_doc_type document_type (filenameOf original_filename upload)
      (pyStrip txt) = .ok c) :
    _handle_request apiKey parsePdf loads outputText upload (some txt) document_type
      original_filename source =
    .ok { status := 200, ok := true, message := "Análise concluída com sucesso.",
          meta := { filename := filenameOf original_filename upload, source := source,
                    mode := some "text", size_bytes := none, pages := none,
                    document_type := some c },
          analysis := _parse_json_or_fallback loads outputText c } := by
  have hens : _ensure_openai_key apiKey = .ok () := by
    unfold _ensure_openai_key
    rw [if_neg hkey]
  have hcli : _get_client apiKey = .ok () := by
    unfold _get_client
    rw [if_neg hkey]
  unfold _handle_request
  simp only [hens, Option.getD_some]
  rw [if_neg htxt]
  rw [hres]
  simp only [analyze_exam_or_rx_text, hcli]

/-- PDF branch of `_handle_request` (non-empty extracted text): the invoker's
parsed dict is returned verbatim inside the 200 envelope. -/
theorem handle_pdf_200 (apiKey outputText : String)
    (parsePdf : Bytes → Except String PdfDoc) (loads : String → Except Unit PyJson)
    (u : Upload) (extracted_text : String) (pages : Nat) (c : String)
    (document_type original_filename source : Option String)
    (hkey : pyStrip apiKey ≠ "") (hlen : 5 ≤ u.data.length)
    (hpc : pyLower (u.content_type.getD "") = "application/pdf" ∨
      pyEndsWith (pyLower (filenameOf original_filename (some u))) ".pdf" = true)
    (hsig : pdfMagic.isPrefixOf u.data = true)
    (hex : extract_text_from_pdf_bytes parsePdf u.data = .ok (extracted_text, pages))
    (hnz : pyStrip extracted_text ≠ "")
    (hres : _resolve_doc_type document_type (filenameOf original_filename (some u))
      extracted_text = .ok c) :
    _handle_request apiKey parsePdf loads outputText (some u) none document_type
      original_filename source =
    .ok { status := 200, ok := true, message := "Análise concluída com sucesso.",
          meta := { filename := filenameOf original_filename (some u), source := source,
                    mode := some "pdf", size_bytes := some u.data.length,
                    pages := some pages, document_type := some c },
          analysis := _parse_json_or_fallback loads outputText c } := by
  have hens : _ensure_openai_key apiKey = .ok () := by
    unfold _ensure_openai_key
    rw [if_neg hkey]
  have hcli : _get_client apiKey = .ok () := by
    unfold _get_client
    rw [if_neg hkey]
  have hrb : _read_bytes u = .ok u.data := by
    unfold _read_bytes
    rw [if_neg (by omega : ¬(u.data.length = 0 ∨ u.data.length < 5))]
  unfold _handle_request
  simp only [hens, Option.getD_none]
  rw [if_pos (show pyStrip "" = "" from rfl)]
  simp only [hrb]
  rw [if_pos hpc]
  rw [if_neg (by simp [hsig] : ¬(pdfMagic.isPrefixOf u.data = false))]
  simp only [hex]
  rw [if_neg hnz]
  simp only [hres]
  simp only [analyze_exam_or_rx_text, hcli]

/-- Image branch of `_handle_request`: the invoker's parsed dict is returned
verbatim inside the 200 envelope. -/
theorem handle_image_200 (apiKey outputText : String)
    (parsePdf : Bytes → Except String PdfDoc) (loads : String → Except Unit PyJson)
    (u : Upload) (c : String) (document_type original_filename source : Option String)
    (hkey : pyStrip apiKey ≠ "") (hlen : 20 ≤ u.data.length)
    (hct : pyLower (u.content_type.getD "") ≠ "application/pdf")
    (hext : pyEndsWith (pyLower (filenameOf original_filename (some u))) ".pdf" = false)
    (hmime : pyLower (u.content_type.getD "") ∈ imageMimes)
    (hres : _resolve_doc_type document_type (filenameOf original_filename (some u)) "" =
      .ok c) :
    _handle_request apiKey parsePdf loads outputText (some u) none document_type
      original_filename source =
    .ok { status := 200, ok := true, message := "Análise concluída com sucesso.",
          meta := { filename := filenameOf original_filename (some u), source := source,
                    mode := some "image", size_bytes := some u.data.length,
                    pages := none, document_type := some c },
          analysis := _parse_json_or_fallback loads outputText c } := by
  have hens : _ensure_openai_key apiKey = .ok () := by
    unfold _ensure_openai_key
    rw [if_neg hkey]
  have hcli : _get_client apiKey = .ok () := by
    unfold _get_client
    rw [if_neg hkey]
  have hrb : _read_bytes u = .ok u.data := by
    unfold _read_bytes
    rw [if_neg (by omega : ¬(u.data.length = 0 ∨ u.data.length < 5))]
  have hana : analyze_exam_or_rx_image_bytes apiKey loads outputText u.data
      (pyLower (u.content_type.getD "")) c = .ok (_parse_json_or_fallback loads outputText c) := by
    have hm2 : pyLower (pyStrip (pyLower (u.content_type.getD ""))) ∈ imageMimes := by
      have hmime2 := hmime
      simp only [imageMimes, List.mem_cons, List.not_mem_nil, or_false] at hmime2
      rcases hmime2 with h | h | h | h <;> rw [h] <;> decide
    unfold analyze_exam_or_rx_image_bytes
    rw [if_neg (by omega : ¬(u.data.length = 0 ∨ u.data.length < 20))]
    rw [if_pos hm2]
    simp only [hcli]
  unfold _handle_request
  simp only [hens, Option.getD_none]
  rw [if_pos (show pyStrip "" = "" from rfl)]
  simp only [hrb]
  rw [if_neg (fun hor => hor.elim hct (fun hb => by
    rw [hext] at hb
    exact absurd hb (by decide)))]
  rw [if_pos hmime]
  simp only [hres, hana]

-- ---------------------------------------------------------------------------
-- Claim C4
-- ---------------------------------------------------------------------------

/-- C4 counterexample: the claim says a totally unparsable byte stream yields an
empty text result rather than a propagated exception; in the code only per-page
extraction is guarded, and a `PdfReader` constructor failure propagates to the
caller unchanged. -/
theorem C4_counterexample :
    extract_text_from_pdf_bytes parsePdfBroken [0x25, 0x50, 0x44, 0x46, 0x00] =
      .error "PdfReadError: EOF marker not found" := rfl

/-- C4 (amended): when the PDF parses, the extractor never raises: if every
individual page's text extraction throws it returns `("", page_count)` with the
true page count.  A byte stream on which the `PdfReader` constructor itself
raises, however, propagates that exception to the caller. -/
theorem C4_extractor_pagefail_total (parsePdf : Bytes → Except String PdfDoc)
    (b : Bytes) (doc : PdfDoc) (hp : parsePdf b = .ok doc)
    (hall : ∀ p ∈ doc.pages, p.extractText = none) :
    extract_text_from_pdf_bytes parsePdf b = .ok ("", doc.pages.length) :=
  extract_scanned parsePdf b doc hp (fun p hpm => by rw [hall p hpm]; rfl)

/-- C4 witness: a two-page PDF on which every page extraction throws. -/
theorem C4_extractor_pagefail_total_witness :
    extract_text_from_pdf_bytes parsePdfAllThrow [1, 2, 3] = .ok ("", 2) :=
  C4_extractor_pagefail_total parsePdfAllThrow [1, 2, 3] ⟨[⟨none⟩, ⟨none⟩]⟩ rfl (by decide)

-- ---------------------------------------------------------------------------
-- Claim C8
-- ---------------------------------------------------------------------------

/-- C8 counterexample: `_norm` does not strip diacritics, so the normalization
of "Prescrição" differs from the normalization of "prescricao". -/
theorem C8_counterexample : ¬ (_norm "Prescrição" = _norm "prescricao") := by decide

/-- C8 (amended): `_norm` lowercases and collapses repeated whitespace to single
spaces (trimming the ends) but performs no diacritic stripping; accented and
unaccented spellings normalize differently, and matching of both is instead
achieved by listing both spellings in the alias/keyword tables. -/
theorem C8_norm_lowercase_collapse_only :
    _norm "Prescrição" = "prescrição" ∧
    _norm "  Pedido   de\tExame  " = "pedido de exame" ∧
    List.lookup "prescricao" aliases = some "receita" ∧
    List.lookup "prescrição" aliases = some "receita" ∧
    "prescricao" ∈ receita_fn_kw ∧ "prescrição" ∈ receita_fn_kw :=
  ⟨rfl, rfl, rfl, rfl, by decide, by decide⟩

-- ---------------------------------------------------------------------------
-- Claim C5
-- ---------------------------------------------------------------------------

/-- C5: an explicit hint that normalizes to a recognized alias resolves to that
alias's category, whatever the filename and extracted text are; `_resolve_doc_type`
is a pure function of its arguments, so resolution is deterministic. -/
theorem C5_explicit_hint_wins (hint fn text cat : String)
    (h : List.lookup (_norm hint) aliases = some cat) :
    _resolve_doc_type (some hint) fn text = .ok cat := by
  unfold _resolve_doc_type
  simp only [Option.getD_some]
  rw [h]

/-- C5 witness: explicit hint "RX" resolves to the prescription category even
though filename and body text heuristically suggest the exam category. -/
theorem C5_explicit_hint_wins_witness :
    _guess_doc_type "pedido.pdf" "solicitação de exame" = some "pedido_exame" ∧
    _resolve_doc_type (some "RX") "pedido.pdf" "solicitação de exame" = .ok "receita" :=
  ⟨rfl, C5_explicit_hint_wins "RX" "pedido.pdf" "solicitação de exame" "receita" rfl⟩

-- ---------------------------------------------------------------------------
-- Claim C2
-- ---------------------------------------------------------------------------

/-- C2 counterexample: with the unrecognized explicit hint "xyz" and a body text
that heuristically suggests the exam category, the orchestrator does NOT fail
with a 422 naming the value — it silently ignores the hint, classifies by the
heuristics and returns a 200 envelope. -/
theorem C2_counterexample :
    _handle_request "k" parsePdfNone loadsFail "saida livre" none
      (some "pedido de exame: hemograma") (some "xyz") none none =
    .ok { status := 200, ok := true, message := "Análise concluída com sucesso.",
          meta := { filename := "documento", source := none, mode := some "text",
                    size_bytes := none, pages := none,
                    document_type := some "pedido_exame" },
          analysis := fallback_noparse "pedido_exame" "saida livre" } := rfl

/-- C2 (amended): an explicit `document_type` that is not a recognized alias is
silently ignored — resolution behaves exactly as if no hint had been supplied,
falling back to the filename/text heuristics; only when those also fail does the
request fail, with a 422 whose fixed message does not mention the invalid value. -/
theorem C2_unrecognized_hint_ignored (hint fn text : String)
    (h : List.lookup (_norm hint) aliases = none) :
    _resolve_doc_type (some hint) fn text = _resolve_doc_type none fn text ∧
    (_guess_doc_type fn text = none →
      _resolve_doc_type (some hint) fn text =
        .error (.http 422 "Documento recusado: a IA só lê PEDIDOS DE EXAMES e RECEITAS. Envie apenas esses documentos.")) := by
  have hnone : List.lookup (_norm ((none : Option String).getD "")) aliases = none := rfl
  constructor
  · unfold _resolve_doc_type
    simp only [Option.getD_some]
    rw [h, hnone]
  · intro hg
    unfold _resolve_doc_type
    simp only [Option.getD_some]
    rw [h, hg]

/-- C2 witness: unrecognized hint plus signal-free filename and text yields the
fixed 422 message (which does not contain "xyz"). -/
theorem C2_unrecognized_hint_ignored_witness :
    _resolve_doc_type (some "xyz") "boleto.png" "conta de luz" =
      .error (.http 422 "Documento recusado: a IA só lê PEDIDOS DE EXAMES e RECEITAS. Envie apenas esses documentos.") ∧
    pyContains "Documento recusado: a IA só lê PEDIDOS DE EXAMES e RECEITAS. Envie apenas esses documentos." "xyz" = false :=
  ⟨(C2_unrecognized_hint_ignored "xyz" "boleto.png" "conta de luz" rfl).2 rfl, by decide⟩

-- ---------------------------------------------------------------------------
-- Claim C6
-- ---------------------------------------------------------------------------

/-- C6 counterexample: a raw output that parses as a JSON object is returned
verbatim by `_parse_json_or_fallback`, so a result with `recusa` true, a null
`motivo_recusa` and a non-empty list field reaches the caller — the claimed
invariant does not hold of the parsing step. -/
theorem C6_counterexample :
    _parse_json_or_fallback loadsC6 c6Json "receita" = c6Fields ∧
    dictGet c6Fields "recusa" = some (.bool true) ∧
    dictGet c6Fields "motivo_recusa" = some PyJson.null ∧
    dictGet c6Fields "pontos_atencao" = some (.arr [.str "dado"]) :=
  ⟨rfl, rfl, rfl, rfl⟩

/-- C6 (amended): the parsing step performs no validation on a parsed JSON
object — it is returned unchanged, so the invariant can fail there; on every
fallback branch (empty output, unparsable output, or non-object JSON) the
synthesized result has `recusa` false, null `motivo_recusa`, all four list
fields empty, and `tipo_documento` equal to the caller-resolved `doc_type`. -/
theorem C6_fallback_invariant (loads : String → Except Unit PyJson) (content dt : String)
    (h : pyStrip content = "" ∨ loads (pyStrip content) = .error () ∨
      ∃ j, loads (pyStrip content) = .ok j ∧ ∀ f, j ≠ PyJson.obj f) :
    dictGet (_parse_json_or_fallback loads content dt) "recusa" = some (.bool false) ∧
    dictGet (_parse_json_or_fallback loads content dt) "motivo_recusa" = some PyJson.null ∧
    dictGet (_parse_json_or_fallback loads content dt) "tipo_documento" = some (.str dt) ∧
    dictGet (_parse_json_or_fallback loads content dt) "pontos_atencao" = some (.arr []) ∧
    dictGet (_parse_json_or_fallback loads content dt) "orientacoes" = some (.arr []) ∧
    dictGet (_parse_json_or_fallback loads content dt) "quando_procurar_urgencia" = some (.arr []) ∧
    dictGet (_parse_json_or_fallback loads content dt) "perguntas_para_medico" = some (.arr []) := by
  have key : _parse_json_or_fallback loads content dt = fallback_empty dt ∨
      (∃ j, _parse_json_or_fallback loads content dt = fallback_nonobj dt j) ∨
      _parse_json_or_fallback loads content dt = fallback_noparse dt (pyStrip content) := by
    by_cases hc : pyStrip content = ""
    · left
      unfold _parse_json_or_fallback
      simp [hc]
    · rcases h with h | h | ⟨j, hj, hno⟩
      · exact absurd h hc
      · right; right
        unfold _parse_json_or_fallback
        simp only [if_neg hc, h]
      · unfold _parse_json_or_fallback
        simp only [if_neg hc, hj]
        cases j with
        | obj f => exact absurd rfl (hno f)
        | null => exact Or.inr (Or.inl ⟨.null, rfl⟩)
        | bool b => exact Or.inr (Or.inl ⟨.bool b, rfl⟩)
        | num n => exact Or.inr (Or.inl ⟨.num n, rfl⟩)
        | str s => exact Or.inr (Or.inl ⟨.str s, rfl⟩)
        | arr xs => exact Or.inr (Or.inl ⟨.arr xs, rfl⟩)
  rcases key with hk | ⟨j, hk⟩ | hk <;> rw [hk] <;>
    exact ⟨rfl, rfl, rfl, rfl, rfl, rfl, rfl⟩

/-- C6 witness: unparsable raw output yields a degraded non-refusal result
carrying the resolved document type. -/
theorem C6_fallback_invariant_witness :
    dictGet (_parse_json_or_fallback loadsFail "lixo não json" "receita") "recusa" =
      some (.bool false) ∧
    dictGet (_parse_json_or_fallback loadsFail "lixo não json" "receita") "tipo_documento" =
      some (.str "receita") :=
  have h := C6_fallback_invariant loadsFail "lixo não json" "receita" (Or.inr (Or.inl rfl))
  ⟨h.1, h.2.2.1⟩

-- ---------------------------------------------------------------------------
-- Claim C7
-- ---------------------------------------------------------------------------

/-- C7 counterexample: the raw output `"5"` is non-empty and not parseable as a
JSON object (it parses to the number 5), yet the synthesized summary is the
fixed string "Resposta em formato inesperado.", not the first 2000 characters
of the raw text. -/
theorem C7_counterexample :
    _parse_json_or_fallback loadsC7 "5" "receita" = fallback_nonobj "receita" (.num 5) ∧
    dictGet (fallback_nonobj "receita" (.num 5)) "resumo" =
      some (.str "Resposta em formato inesperado.") ∧
    ¬ ("Resposta em formato inesperado." = pySlice "5" 2000) :=
  ⟨rfl, rfl, by decide⟩

/-- C7 (amended): empty/whitespace-only output synthesizes a non-refusal result
saying no analysis could be produced with empty lists; non-empty output on which
JSON parsing raises synthesizes a non-refusal result whose summary is the first
at most 2000 characters of the (stripped) raw text with empty lists; non-empty
output parsing to a non-object JSON value gets the fixed summary "Resposta em
formato inesperado." instead. -/
theorem C7_parse_fallback_shape (loads : String → Except Unit PyJson) (content dt : String) :
    (pyStrip content = "" →
      dictGet (_parse_json_or_fallback loads content dt) "resumo" =
        some (.str "Não foi possível gerar análise (resposta vazia).") ∧
      dictGet (_parse_json_or_fallback loads content dt) "recusa" = some (.bool false) ∧
      dictGet (_parse_json_or_fallback loads content dt) "pontos_atencao" = some (.arr []) ∧
      dictGet (_parse_json_or_fallback loads content dt) "orientacoes" = some (.arr []) ∧
      dictGet (_parse_json_or_fallback loads content dt) "quando_procurar_urgencia" = some (.arr []) ∧
      dictGet (_parse_json_or_fallback loads content dt) "perguntas_para_medico" = some (.arr [])) ∧
    (pyStrip content ≠ "" → loads (pyStrip content) = .error () →
      dictGet (_parse_json_or_fallback loads content dt) "resumo" =
        some (.str (pySlice (pyStrip content) 2000)) ∧
      dictGet (_parse_json_or_fallback loads content dt) "recusa" = some (.bool false) ∧
      dictGet (_parse_json_or_fallback loads content dt) "pontos_atencao" = some (.arr []) ∧
      dictGet (_parse_json_or_fallback loads content dt) "orientacoes" = some (.arr []) ∧
      dictGet (_parse_json_or_fallback loads content dt) "quando_procurar_urgencia" = some (.arr []) ∧
      dictGet (_parse_json_or_fallback loads content dt) "perguntas_para_medico" = some (.arr [])) ∧
    (∀ j, pyStrip content ≠ "" → loads (pyStrip content) = .ok j →
      (∀ f, j ≠ PyJson.obj f) →
      dictGet (_parse_json_or_fallback loads content dt) "resumo" =
        some (.str "Resposta em formato inesperado.")) := by
  refine ⟨fun hc => ?_, fun hc hl => ?_, fun j hc hl hno => ?_⟩
  · have hp : _parse_json_or_fallback loads content dt = fallback_empty dt := by
      unfold _parse_json_or_fallback
      simp [hc]
    rw [hp]
    exact ⟨rfl, rfl, rfl, rfl, rfl, rfl⟩
  · have hp : _parse_json_or_fallback loads content dt =
        fallback_noparse dt (pyStrip content) := by
      unfold _parse_json_or_fallback
      simp only [if_neg hc, hl]
    rw [hp]
    exact ⟨rfl, rfl, rfl, rfl, rfl, rfl⟩
  · have hp : _parse_json_or_fallback loads content dt = fallback_nonobj dt j := by
      unfold _parse_json_or_fallback
      simp only [if_neg hc, hl, hno]
    rw [hp]
    rfl

/-- C7 witness: a non-JSON raw output of 18 characters becomes the summary of a
well-formed non-refusal result. -/
theorem C7_parse_fallback_shape_witness :
    dictGet (_parse_json_or_fallback loadsFail "texto cru do modelo" "receita") "resumo" =
      some (.str "texto cru do modelo") := by
  exact ((C7_parse_fallback_shape loadsFail "texto cru do modelo" "receita").2.1
    (by decide) rfl).1

-- ---------------------------------------------------------------------------
-- Claim C1
-- ---------------------------------------------------------------------------

set_option maxRecDepth 8192 in
/-- C1 counterexample: a concrete text-mode request whose model reply is a
refusal (`recusa` true) is returned untouched inside the HTTP 200 success
envelope — the orchestrator never converts it into a 4xx rejection. -/
theorem C1_counterexample :
    _handle_request "k" parsePdfNone loadsRefusal refusalJson none
      (some "dipirona 500mg tomar de 8 em 8 horas") (some "receita") none none =
    .ok { status := 200, ok := true, message := "Análise concluída com sucesso.",
          meta := { filename := "documento", source := none, mode := some "text",
                    size_bytes := none, pages := none, document_type := some "receita" },
          analysis := refusalFields } ∧
    dictGet refusalFields "recusa" = some (.bool true) :=
  ⟨rfl, rfl⟩

/-- C1 (amended): the orchestrator never inspects the refusal flag of the
Analysis Invoker's result.  On each of its three invoker call sites — direct
text, extracted PDF text, and image — the parsed dict, refusal-flagged or not,
is placed verbatim inside the HTTP 200 success envelope; and every
`HTTPException` `_handle_request` can raise on any input is one of the six
fixed pre-invoker (status, detail) pairs of `orchestrator_http_errors`, so no
4xx ever derives from the model's refusal or carries its stated reason — the
only 4xx "refusal" is the classifier's 422 raised before the invoker runs. -/
theorem C1_refusal_returned_in_200 (apiKey outputText : String)
    (parsePdf : Bytes → Except String PdfDoc) (loads : String → Except Unit PyJson)
    (document_type original_filename source : Option String)
    (hkey : pyStrip apiKey ≠ "") :
    (∀ (upload : Option Upload) (txt c : String), pyStrip txt ≠ "" →
      _resolve_doc_type document_type (filenameOf original_filename upload)
        (pyStrip txt) = .ok c →
      _handle_request apiKey parsePdf loads outputText upload (some txt) document_type
        original_filename source =
      .ok { status := 200, ok := true, message := "Análise concluída com sucesso.",
            meta := { filename := filenameOf original_filename upload, source := source,
                      mode := some "text", size_bytes := none, pages := none,
                      document_type := some c },
            analysis := _parse_json_or_fallback loads outputText c }) ∧
    (∀ (u : Upload) (extracted_text : String) (pages : Nat) (c : String),
      5 ≤ u.data.length →
      (pyLower (u.content_type.getD "") = "application/pdf" ∨
        pyEndsWith (pyLower (filenameOf original_filename (some u))) ".pdf" = true) →
      pdfMagic.isPrefixOf u.data = true →
      extract_text_from_pdf_bytes parsePdf u.data = .ok (extracted_text, pages) →
      pyStrip extracted_text ≠ "" →
      _resolve_doc_type document_type (filenameOf original_filename (some u))
        extracted_text = .ok c →
      _handle_request apiKey parsePdf loads outputText (some u) none document_type
        original_filename source =
      .ok { status := 200, ok := true, message := "Análise concluída com sucesso.",
            meta := { filename := filenameOf original_filename (some u), source := source,
                      mode := some "pdf", size_bytes := some u.data.length,
                      pages := some pages, document_type := some c },
            analysis := _parse_json_or_fallback loads outputText c }) ∧
    (∀ (u : Upload) (c : String),
      20 ≤ u.data.length →
      pyLower (u.content_type.getD "") ≠ "application/pdf" →
      pyEndsWith (pyLower (filenameOf original_filename (some u))) ".pdf" = false →
      pyLower (u.content_type.getD "") ∈ imageMimes →
      _resolve_doc_type document_type (filenameOf original_filename (some u)) "" = .ok c →
      _handle_request apiKey parsePdf loads outputText (some u) none document_type
        original_filename source =
      .ok { status := 200, ok := true, message := "Análise concluída com sucesso.",
            meta := { filename := filenameOf original_filename (some u), source := source,
                      mode := some "image", size_bytes := some u.data.length,
                      pages := none, document_type := some c },
            analysis := _parse_json_or_fallback loads outputText c }) ∧
    (∀ (upload : Option Upload) (text : Option String) (st : Nat) (d : String),
      _handle_request apiKey parsePdf loads outputText upload text document_type
        original_filename source = .error (.http st d) →
      (st, d) ∈ orchestrator_http_errors) :=
  ⟨fun upload txt c htxt hres =>
      handle_text_200 apiKey outputText parsePdf loads upload txt document_type
        original_filename source c hkey htxt hres,
   fun u extracted_text pages c hlen hpc hsig hex hnz hres =>
      handle_pdf_200 apiKey outputText parsePdf loads u extracted_text pages c
        document_type original_filename source hkey hlen hpc hsig hex hnz hres,
   fun u c hlen hct hext hmime hres =>
      handle_image_200 apiKey outputText parsePdf loads u c document_type
        original_filename source hkey hlen hct hext hmime hres,
   fun upload text st d h =>
      handle_http_error_closed apiKey outputText parsePdf loads upload text document_type
        original_filename source st d h⟩

set_option maxRecDepth 16384 in
/-- C1 witness: the PDF branch and the image branch each return the concrete
refusal reply (`recusa` true) verbatim inside a concrete 200 envelope, and a
concrete pre-invoker rejection lands in the closed error list — all obtained by
applying the amended theorem. -/
theorem C1_refusal_returned_in_200_witness :
    (_handle_request "chave" parsePdfRx loadsRefusal refusalJson (some uploadRxPdf) none
      none none none =
    .ok { status := 200, ok := true, message := "Análise concluída com sucesso.",
          meta := { filename := "doc.pdf", source := none, mode := some "pdf",
                    size_bytes := some 5, pages := some 1, document_type := some "receita" },
          analysis := _parse_json_or_fallback loadsRefusal refusalJson "receita" } ∧
     dictGet (_parse_json_or_fallback loadsRefusal refusalJson "receita") "recusa" =
       some (.bool true)) ∧
    (_handle_request "chave" parsePdfNone loadsRefusal refusalJson (some uploadImgRx) none
      none none none =
    .ok { status := 200, ok := true, message := "Análise concluída com sucesso.",
          meta := { filename := "receita.png", source := none, mode := some "image",
                    size_bytes := some 25, pages := none, document_type := some "receita" },
          analysis := _parse_json_or_fallback loadsRefusal refusalJson "receita" }) ∧
    ((422, "Documento recusado: a IA só lê PEDIDOS DE EXAMES e RECEITAS. Envie apenas esses documentos.") ∈ orchestrator_http_errors) :=
  ⟨⟨(C1_refusal_returned_in_200 "chave" refusalJson parsePdfRx loadsRefusal none none none
      (by decide)).2.1 uploadRxPdf "posologia: tomar 1 comprimido" 1 "receita"
      (by decide) (Or.inl rfl) rfl rfl (by decide) rfl, rfl⟩,
   (C1_refusal_returned_in_200 "chave" refusalJson parsePdfNone loadsRefusal none none none
      (by decide)).2.2.1 uploadImgRx "receita" (by decide) (by decide) rfl (by decide) rfl,
   (C1_refusal_returned_in_200 "chave" refusalJson parsePdfNone loadsRefusal none none none
      (by decide)).2.2.2 (some uploadPng2) none 422
      "Documento recusado: a IA só lê PEDIDOS DE EXAMES e RECEITAS. Envie apenas esses documentos." rfl⟩

-- ---------------------------------------------------------------------------
-- Claim C3
-- ---------------------------------------------------------------------------

/-- C3: a PDF upload none of whose pages yields extractable text produces an
HTTP 200 response whose analysis is the refusal-shaped scanned-PDF object
(`recusa` true, non-null `motivo_recusa`) and whose `meta.pages` is the PDF's
true page count. -/
theorem C3_scanned_pdf_soft_failure (apiKey outputText : String)
    (parsePdf : Bytes → Except String PdfDoc) (loads : String → Except Unit PyJson)
    (u : Upload) (doc : PdfDoc) (document_type original_filename source : Option String)
    (hkey : pyStrip apiKey ≠ "") (hlen : 5 ≤ u.data.length)
    (hct : pyLower (u.content_type.getD "") = "application/pdf")
    (hsig : pdfMagic.isPrefixOf u.data = true)
    (hparse : parsePdf u.data = .ok doc)
    (hscan : ∀ p ∈ doc.pages, pyStrip (p.extractText.getD "") = "") :
    _handle_request apiKey parsePdf loads outputText (some u) none document_type
      original_filename source =
    .ok { status := 200, ok := true,
          message := "PDF recebido, mas não foi possível extrair texto.",
          meta := { filename := filenameOf original_filename (some u), source := source,
                    mode := some "pdf", size_bytes := some u.data.length,
                    pages := some doc.pages.length, document_type := none },
          analysis := scanned_pdf_analysis } ∧
    dictGet scanned_pdf_analysis "recusa" = some (.bool true) ∧
    dictGet scanned_pdf_analysis "motivo_recusa" =
      some (.str "O PDF parece escaneado (imagem) ou não possui texto. Envie um PDF com texto selecionável.") := by
  refine ⟨?_, rfl, rfl⟩
  have hens : _ensure_openai_key apiKey = .ok () := by
    unfold _ensure_openai_key
    rw [if_neg hkey]
  have hrb : _read_bytes u = .ok u.data := by
    unfold _read_bytes
    rw [if_neg (by omega : ¬(u.data.length = 0 ∨ u.data.length < 5))]
  have hex := extract_scanned parsePdf u.data doc hparse hscan
  unfold _handle_request
  simp only [hens, Option.getD_none]
  rw [if_pos (show pyStrip "" = "" from rfl)]
  simp only [hrb]
  rw [if_pos (Or.inl hct)]
  rw [if_neg (by simp [hsig] : ¬ (pdfMagic.isPrefixOf u.data = false))]
  simp only [hex]
  rw [if_pos (show pyStrip "" = "" from rfl)]

/-- C3 witness: a concrete scanned three-page PDF (two pages raise on
extraction, one yields only whitespace) gives the concrete 200 soft-failure
response with `meta.pages = 3`, plus the Extractor output `("", 3)`. -/
theorem C3_scanned_pdf_soft_failure_witness :
    (_handle_request "k" parsePdfScan3 loadsFail "" (some uploadScan3) none none
      none none =
    .ok { status := 200, ok := true,
          message := "PDF recebido, mas não foi possível extrair texto.",
          meta := { filename := "scan.pdf", source := none, mode := some "pdf",
                    size_bytes := some 5, pages := some 3, document_type := none },
          analysis := scanned_pdf_analysis } ∧
    dictGet scanned_pdf_analysis "recusa" = some (.bool true) ∧
    dictGet scanned_pdf_analysis "motivo_recusa" =
      some (.str "O PDF parece escaneado (imagem) ou não possui texto. Envie um PDF com texto selecionável.")) ∧
    extract_text_from_pdf_bytes parsePdfScan3 uploadScan3.data = .ok ("", 3) :=
  ⟨C3_scanned_pdf_soft_failure "k" "" parsePdfScan3 loadsFail uploadScan3
      ⟨[⟨none⟩, ⟨some "  "⟩, ⟨none⟩]⟩ none none none
      (by decide) (by decide) rfl rfl rfl (by decide), rfl⟩

-- ---------------------------------------------------------------------------
-- Claim C9
-- ---------------------------------------------------------------------------

/-- C9 counterexample: a PNG upload with no explicit `document_type` and no
filename/text category signal is REJECTED with the classifier's 422 — the
orchestrator does not proceed with any default document category. -/
theorem C9_counterexample :
    _handle_request "k" parsePdfNone loadsFail "" (some uploadPng) none none none none =
      .error (.http 422 "Documento recusado: a IA só lê PEDIDOS DE EXAMES e RECEITAS. Envie apenas esses documentos.") := rfl

/-- C9 (amended): for an image upload with no recognized explicit hint and no
filename signal (classification indeterminate), the orchestrator rejects the
request with the classifier's fixed 422 error; no default category exists. -/
theorem C9_indeterminate_image_rejected (apiKey outputText : String)
    (parsePdf : Bytes → Except String PdfDoc) (loads : String → Except Unit PyJson)
    (u : Upload) (document_type original_filename source : Option String)
    (hkey : pyStrip apiKey ≠ "") (hlen : 5 ≤ u.data.length)
    (hct : pyLower (u.content_type.getD "") ≠ "application/pdf")
    (hext : pyEndsWith (pyLower (filenameOf original_filename (some u))) ".pdf" = false)
    (hmime : pyLower (u.content_type.getD "") ∈ imageMimes)
    (hhint : List.lookup (_norm (document_type.getD "")) aliases = none)
    (hguess : _guess_doc_type (filenameOf original_filename (some u)) "" = none) :
    _handle_request apiKey parsePdf loads outputText (some u) none document_type
      original_filename source =
      .error (.http 422 "Documento recusado: a IA só lê PEDIDOS DE EXAMES e RECEITAS. Envie apenas esses documentos.") := by
  have hens : _ensure_openai_key apiKey = .ok () := by
    unfold _ensure_openai_key
    rw [if_neg hkey]
  have hrb : _read_bytes u = .ok u.data := by
    unfold _read_bytes
    rw [if_neg (by omega : ¬(u.data.length = 0 ∨ u.data.length < 5))]
  have hres : _resolve_doc_type document_type (filenameOf original_filename (some u)) "" =
      .error (.http 422 "Documento recusado: a IA só lê PEDIDOS DE EXAMES e RECEITAS. Envie apenas esses documentos.") := by
    unfold _resolve_doc_type
    simp only [hhint, hguess]
  unfold _handle_request
  simp only [hens, Option.getD_none]
  rw [if_pos (show pyStrip "" = "" from rfl)]
  simp only [hrb]
  rw [if_neg (by
    rintro (h | h)
    · exact hct h
    · rw [hext] at h
      exact absurd h (by decide))]
  rw [if_pos hmime]
  simp only [hres]

/-- C9 witness: a concrete signal-free PNG upload is rejected with the 422. -/
theorem C9_indeterminate_image_rejected_witness :
    _handle_request "chave" parsePdfNone loadsFail "" (some uploadPngNoSignal) none none
      none (some "app") =
      .error (.http 422 "Documento recusado: a IA só lê PEDIDOS DE EXAMES e RECEITAS. Envie apenas esses documentos.") :=
  C9_indeterminate_image_rejected "chave" "" parsePdfNone loadsFail uploadPngNoSignal
    none none (some "app") (by decide) (by decide) (by decide) rfl (by decide) rfl rfl

-- ---------------------------------------------------------------------------
-- Claim C10
-- ---------------------------------------------------------------------------

/-- C10: an image upload of 5..19 bytes passes the orchestrator's intake size
check (≥ 5 bytes), but the image Analysis Invoker then raises
`RuntimeError("Imagem vazia ou inválida.")`, which no orchestrator branch
catches: the request ends in an uncaught server-side exception, not in any
fastapi `HTTPException` (4xx intake error). -/
theorem C10_small_image_uncaught_runtime (apiKey outputText : String)
    (parsePdf : Bytes → Except String PdfDoc) (loads : String → Except Unit PyJson)
    (u : Upload) (c : String) (document_type original_filename source : Option String)
    (hkey : pyStrip apiKey ≠ "") (hlen : 5 ≤ u.data.length) (hlen2 : u.data.length < 20)
    (hct : pyLower (u.content_type.getD "") ≠ "application/pdf")
    (hext : pyEndsWith (pyLower (filenameOf original_filename (some u))) ".pdf" = false)
    (hmime : pyLower (u.content_type.getD "") ∈ imageMimes)
    (hres : _resolve_doc_type document_type (filenameOf original_filename (some u)) "" =
      .ok c) :
    _handle_request apiKey parsePdf loads outputText (some u) none document_type
      original_filename source = .error (.runtime "Imagem vazia ou inválida.") ∧
    ∀ st d, PyErr.runtime "Imagem vazia ou inválida." ≠ PyErr.http st d := by
  refine ⟨?_, fun st d h => PyErr.noConfusion h⟩
  have hens : _ensure_openai_key apiKey = .ok () := by
    unfold _ensure_openai_key
    rw [if_neg hkey]
  have hrb : _read_bytes u = .ok u.data := by
    unfold _read_bytes
    rw [if_neg (by omega : ¬(u.data.length = 0 ∨ u.data.length < 5))]
  have hana : analyze_exam_or_rx_image_bytes apiKey loads outputText u.data
      (pyLower (u.content_type.getD "")) c = .error (.runtime "Imagem vazia ou inválida.") := by
    unfold analyze_exam_or_rx_image_bytes
    rw [if_pos (Or.inr hlen2)]
  unfold _handle_request
  simp only [hens, Option.getD_none]
  rw [if_pos (show pyStrip "" = "" from rfl)]
  simp only [hrb]
  rw [if_neg (by
    rintro (h | h)
    · exact hct h
    · rw [hext] at h
      exact absurd h (by decide))]
  rw [if_pos hmime]
  simp only [hres, hana]

/-- C10 witness: a 10-byte PNG named "receita.png" (so the classifier resolves
from the filename) dies with the uncaught `RuntimeError`. -/
theorem C10_small_image_uncaught_runtime_witness :
    _handle_request "chave" parsePdfNone loadsFail "" (some uploadTinyPng) none none
      none none = .error (.runtime "Imagem vazia ou inválida.") ∧
    ∀ st d, PyErr.runtime "Imagem vazia ou inválida." ≠ PyErr.http st d :=
  C10_small_image_uncaught_runtime "chave" "" parsePdfNone loadsFail uploadTinyPng
    "receita" none none none (by decide) (by decide) (by decide) (by decide) rfl
    (by decide) rfl
